import Mathlib

/-!
Verification of the ESP32 NTRIP DUO relay firmware core.

Shallow embedding of the connection-owning components:
* the NTRIP uplink tasks (`ntrip_server.c` / `ntrip_server_2.c`): the UART
  dispatch handler, the keep-alive decay task and one iteration of the
  connect/handshake/stream worker loop;
* the TCP/UDP socket server (`socket_server.c`): the fixed-capacity client
  table, both accept paths and the broadcast loop;
* the socket client (`socket_client.c`): the reconnect backoff and the send
  path;
* the SD logger (`sd_logger.c`): the write path with daily rotation.

Machine integers are modelled as `Int`/`Nat`; socket descriptors as `Int`
(negative = invalid); fallible I/O calls are oracles passed as parameters
(the `Int` a `write`/`send` returned, the `Option String` a `read`
produced, whether an `fopen` succeeded).
-/

namespace Esp32NtripDuo

/-- ESP-IDF error codes used by the embedded functions. -/
inductive esp_err_t where
  | ESP_OK
  | ESP_FAIL
  | ESP_ERR_INVALID_STATE
deriving DecidableEq

/-! ## NTRIP uplink: UART dispatch handler (`ntrip_server_uart_handler`)

Per-endpoint state of the module-level statics of `ntrip_server_2.c`
(identical in the primary server file): the socket, the three event-group
bits, the keep-alive counter, the sent-byte statistic, and whether
`vTaskResume(server_task)` was issued. -/

structure NtripServerState where
  sock : Int
  caster_ready : Bool
  data_ready : Bool
  data_sent : Bool
  data_keep_alive : Nat
  bytes_sent : Nat
  resume_requested : Bool
deriving DecidableEq

/-- One invocation of `ntrip_server_uart_handler` (ntrip_server_2.c lines
69-105).  `mutexOk` is whether `xSemaphoreTake(sock_mutex, 100ms)`
succeeded; `writeResult` is what `write(sock, buffer, length)` returned.
The event-bit tests use the snapshot taken at entry, as in the source. -/
def ntrip_server_uart_handler (mutexOk : Bool) (writeResult : Int)
    (s : NtripServerState) : NtripServerState :=
  let s1 := if s.data_ready = false then { s with data_ready := true } else s
  let s2 := { s1 with data_keep_alive := 0 }
  if s.caster_ready = false then s2
  else
    let s3 := if s.data_sent = false then { s2 with data_sent := true } else s2
    if mutexOk = true then
      if 0 ≤ s3.sock then
        if writeResult < 0 then
          { s3 with sock := -1, resume_requested := true }
        else
          { s3 with bytes_sent := s3.bytes_sent + writeResult.toNat }
      else s3
    else s3

/-- Source Dispatch delivers the same chunk to both registered uplink
handlers; the two endpoints are separate compilation units with separate
statics, so the system state is a pair and each handler acts on its own
component. -/
def source_dispatch (mA mB : Bool) (wrA wrB : Int)
    (st : NtripServerState × NtripServerState) :
    NtripServerState × NtripServerState :=
  (ntrip_server_uart_handler mA wrA st.1, ntrip_server_uart_handler mB wrB st.2)

/-! ## Socket server client table (`socket_server.c`) -/

def MAX_CLIENTS : Nat := 10

/-- One slot of the fixed-capacity client table (`socket_client_t`).
The `sockaddr_in6` compared bytewise by `memcmp` is modelled as an
(address, port) pair. -/
structure socket_client_t where
  socket : Int
  addr : Nat × Nat
  connected : Bool
  bytes_sent : Nat
  bytes_received : Nat
  connect_time : Nat
deriving DecidableEq

/-- The all-zero slot produced by `memset(&clients[i], 0, ...)`. -/
def emptyClient : socket_client_t :=
  { socket := 0, addr := (0, 0), connected := false,
    bytes_sent := 0, bytes_received := 0, connect_time := 0 }

/-- Index of the first non-connected slot, as scanned by the accept loops
(`for (i = 0; i < MAX_CLIENTS; i++) if (!clients[i].connected) ...`). -/
def findFreeIdx : List socket_client_t → Option Nat
  | [] => none
  | c :: rest =>
    if c.connected = false then some 0
    else (findFreeIdx rest).map (fun j => j + 1)

/-- Index of the first connected slot whose remembered address equals the
datagram's source address (`clients[i].connected && memcmp(...) == 0`). -/
def findAddrIdx (a : Nat × Nat) : List socket_client_t → Option Nat
  | [] => none
  | c :: rest =>
    if c.connected = true ∧ c.addr = a then some 0
    else (findAddrIdx a rest).map (fun j => j + 1)

/-- Function `socket_tcp_accept` (socket_server.c lines 393-427) after `accept`
returned `client_socket` from source address `a`: claim the first free
slot, or close the socket when the table is full.  Result: the table, the
claimed slot, and whether the accepted socket was immediately closed. -/
def socket_tcp_accept (client_socket : Int) (a : Nat × Nat) (now : Nat)
    (tbl : List socket_client_t) :
    List socket_client_t × Option Nat × Bool :=
  match findFreeIdx tbl with
  | some i =>
    (tbl.set i { socket := client_socket, addr := a, connected := true,
                 bytes_sent := 0, bytes_received := 0, connect_time := now },
     some i, false)
  | none => (tbl, none, true)

/-- Function `socket_udp_accept` (socket_server.c lines 429-472).  It
issues its own blocking `recvfrom` with `MSG_PEEK` (line 434); `a` is the
source address that peek returns — the address of the first datagram
queued on the socket at that moment (the call blocks until one is
queued).  Given that key: reuse the slot already keyed by `a`, otherwise
claim the first free slot (storing the server socket), otherwise do
nothing. -/
def socket_udp_accept (server_socket : Int) (a : Nat × Nat) (now : Nat)
    (tbl : List socket_client_t) : List socket_client_t × Option Nat :=
  match findAddrIdx a tbl with
  | some i => (tbl, some i)
  | none =>
    match findFreeIdx tbl with
    | some i =>
      (tbl.set i { socket := server_socket, addr := a, connected := true,
                   bytes_sent := 0, bytes_received := 0, connect_time := now },
       some i)
    | none => (tbl, none)

/-- The UDP branch of `socket_server_task` (lines 585-604) processing one
datagram of `len` bytes.  The `recvfrom` with flags 0 at line 589 CONSUMES
the datagram (its source address is stored into a local but never used
afterwards); only then is `socket_udp_accept` called, whose own blocking
`MSG_PEEK` `recvfrom` (line 434) keys the slot lookup by `a_peek` — the
source address of the NEXT datagram queued on the socket, the branch
blocking inside that peek until one is queued.  When the lookup yields a
slot, the consumed datagram's `len` is added to that slot's
`bytes_received`; the payload is forwarded to the UART either way.
Result: the table and the bytes forwarded to UART. -/
def socket_server_handle_udp (server_socket : Int) (a_peek : Nat × Nat)
    (now : Nat) (len : Nat) (tbl : List socket_client_t) :
    List socket_client_t × Nat :=
  let r := socket_udp_accept server_socket a_peek now tbl
  match r.2 with
  | some i =>
    let c := r.1.getD i emptyClient
    (r.1.set i { c with bytes_received := c.bytes_received + len }, len)
  | none => (r.1, len)

/-- Effect of one broadcast iteration on one slot (`socket_send_to_all_clients`
loop body): skip unconnected slots; a failed `send`/`sendto` marks the slot
for cleanup, a successful one adds the returned count to `bytes_sent`. -/
def broadcast_step (sendResult : Int) (c : socket_client_t) : socket_client_t :=
  if c.connected = true then
    if sendResult < 0 then { c with connected := false }
    else { c with bytes_sent := c.bytes_sent + sendResult.toNat }
  else c

/-- Function `socket_send_to_all_clients` (socket_server.c lines 493-519): one pass
over the table, slot `i` seeing the result `sendResult i` of its own
`send`/`sendto` call. -/
def socket_send_to_all_clients (sendResult : Nat → Int) :
    List socket_client_t → List socket_client_t
  | [] => []
  | c :: rest =>
    broadcast_step (sendResult 0) c ::
      socket_send_to_all_clients (fun i => sendResult (i + 1)) rest

/-! ## NTRIP uplink: handshake attempt (`ntrip_server_task` loop body) -/

/-- Modelled from the spec: `NEWLINE` (defined in `util.h`, not included
under src/) — the uplink request uses CRLF line endings. -/
def NEWLINE : String := "\x0d\x0a"

/-- Modelled from the spec: the `connect_socket` resolve-failure sentinel
(`util.h`, not included under src/); a distinct negative value. -/
def CONNECT_SOCKET_ERROR_RESOLVE : Int := -2

/-- Modelled from the spec: the `connect_socket` connect-failure sentinel
(`util.h`, not included under src/); a distinct negative value. -/
def CONNECT_SOCKET_ERROR_CONNECT : Int := -3

/-- Chars of the response up to the first CRLF; `none` when the response
contains no CRLF. -/
def takeUntilCRLF : List Char → Option (List Char)
  | [] => none
  | '\x0d' :: '\x0a' :: _ => some []
  | c :: rest => (takeUntilCRLF rest).map (fun cs => c :: cs)

/-- Modelled from the spec: `extract_http_header(buffer, "")` (`util.c`,
not included under src/) extracts the HTTP-style status line — the first
CRLF-terminated line of the response — and fails on a malformed response
with no such line. -/
def extract_http_header (buffer : String) : Option String :=
  (takeUntilCRLF buffer.data).map (fun cs => String.mk cs)

/-- Modelled from the spec: the small whitelist of "OK" status strings
accepted by `ntrip_response_ok` (`ntrip.c`, not included under src/). -/
def NTRIP_OK_STATUSES : List String :=
  ["ICY 200 OK", "HTTP/1.1 200 OK", "HTTP/1.0 200 OK", "OK"]

/-- Modelled from the spec: `ntrip_response_ok` treats a status line as
success only if it matches the whitelist of "OK" status strings. -/
def ntrip_response_ok (status : String) : Bool :=
  NTRIP_OK_STATUSES.contains status

/-- The `snprintf` format of the SOURCE request (ntrip_server_2.c lines
194-196): `"SOURCE %s /%s" NEWLINE "Source-Agent: NTRIP %s/%s" NEWLINE
NEWLINE` applied to password, mountpoint, server name and version. -/
def buildSourceRequest (password mountpoint serverName version : String) :
    String :=
  "SOURCE " ++ password ++ " /" ++ mountpoint ++ NEWLINE ++
    "Source-Agent: NTRIP " ++ serverName ++ "/" ++ version ++ NEWLINE ++ NEWLINE

/-- Observable outcome of one iteration of the `ntrip_server_task` loop:
the payload of the first `write` after connect (if reached), whether
`CASTER_READY_BIT` was set, whether `retry_reset` was called, whether the
worker parked in streaming, and the socket at the end of the iteration
(every path reaches `_error:` and runs `destroy_socket`). -/
structure AttemptOutcome where
  request_sent : Option String
  caster_ready_set : Bool
  retry_reset_called : Bool
  reached_streaming : Bool
  sock_after : Int
deriving DecidableEq

/-- One iteration of the `ntrip_server_task` loop from the config load to
the `_error:` cleanup (ntrip_server_2.c lines 174-240).  Oracles:
`configOk` — the three config-string allocations succeeded;
`connectResult` — what `connect_socket` returned; `writeResult` — what
`write` of the request returned; `readResult` — the response `read`
produced (`none` when `len <= 0`). -/
def ntrip_server_attempt (configOk : Bool) (connectResult : Int)
    (writeResult : Int) (readResult : Option String)
    (password mountpoint serverName version : String) : AttemptOutcome :=
  if configOk = false then
    { request_sent := none, caster_ready_set := false,
      retry_reset_called := false, reached_streaming := false, sock_after := -1 }
  else if connectResult = CONNECT_SOCKET_ERROR_RESOLVE then
    { request_sent := none, caster_ready_set := false,
      retry_reset_called := false, reached_streaming := false, sock_after := -1 }
  else if connectResult = CONNECT_SOCKET_ERROR_CONNECT then
    { request_sent := none, caster_ready_set := false,
      retry_reset_called := false, reached_streaming := false, sock_after := -1 }
  else
    let request := buildSourceRequest password mountpoint serverName version
    if writeResult < 0 then
      { request_sent := some request, caster_ready_set := false,
        retry_reset_called := false, reached_streaming := false, sock_after := -1 }
    else
      match readResult with
      | none =>
        { request_sent := some request, caster_ready_set := false,
          retry_reset_called := false, reached_streaming := false, sock_after := -1 }
      | some response =>
        match extract_http_header response with
        | none =>
          { request_sent := some request, caster_ready_set := false,
            retry_reset_called := false, reached_streaming := false,
            sock_after := -1 }
        | some status =>
          if ntrip_response_ok status = true then
            { request_sent := some request, caster_ready_set := true,
              retry_reset_called := true, reached_streaming := true,
              sock_after := -1 }
          else
            { request_sent := some request, caster_ready_set := false,
              retry_reset_called := false, reached_streaming := false,
              sock_after := -1 }

/-! ## NTRIP uplink: keep-alive liveness gating -/

/-- Liveness-relevant slice of the uplink statics: the `DATA_READY_BIT`,
the `data_keep_alive` counter, and whether the worker is blocked inside
`xEventGroupWaitBits(DATA_READY_BIT, ...)`. -/
structure NtripLivenessState where
  data_ready : Bool
  data_keep_alive : Nat
  parked_waiting : Bool
deriving DecidableEq

/-- One iteration of `ntrip_server_sleep_task` (ntrip_server_2.c lines
112-120) with threshold `T`: clear `DATA_READY_BIT` when the counter has
reached exactly `T`, then advance the counter by `T / 10`. -/
def ntrip_keep_alive_tick (T : Nat) (s : NtripLivenessState) :
    NtripLivenessState :=
  let s1 := if s.data_keep_alive = T then { s with data_ready := false } else s
  { s1 with data_keep_alive := s1.data_keep_alive + T / 10 }

/-- Iterates `k` consecutive keep-alive iterations with no UART data in between. -/
def ntrip_keep_alive_ticks (T : Nat) : Nat → NtripLivenessState →
    NtripLivenessState
  | 0, s => s
  | k + 1, s => ntrip_keep_alive_ticks T k (ntrip_keep_alive_tick T s)

/-- The liveness prefix of `ntrip_server_uart_handler` (lines 70-79): a
source chunk sets `DATA_READY_BIT` when clear and zeroes the counter.  The
worker waits with `xClearOnExit = true`, so when it is parked on the bit
the set wakes it and the wait's return consumes the bit again. -/
def ntrip_uart_data_arrival (s : NtripLivenessState) : NtripLivenessState :=
  if s.data_ready = false then
    if s.parked_waiting = true then
      { s with data_ready := false, parked_waiting := false, data_keep_alive := 0 }
    else
      { s with data_ready := true, data_keep_alive := 0 }
  else
    { s with data_keep_alive := 0 }

/-- The gate at the top of the `ntrip_server_task` loop (lines 164-168):
with `DATA_READY_BIT` clear the worker announces WAITING and parks instead
of proceeding to connect.  Result: (proceeds to a connection attempt?,
state). -/
def ntrip_wait_for_data_gate (s : NtripLivenessState) :
    Bool × NtripLivenessState :=
  if s.data_ready = false then (false, { s with parked_waiting := true })
  else (true, s)

/-! ## Socket client (`socket_client.c`) -/

def RECONNECT_DELAY_MS : Nat := 5000

def MAX_RECONNECT_DELAY_MS : Nat := 60000

/-- Outcome of one iteration of the `socket_client_connect` retry loop
(socket_client.c lines 67-137). -/
inductive ConnectAttemptEvent where
  | resolveFail
  | socketFail
  | connectFail
  | success
deriving DecidableEq

/-- Update of the local `reconnect_delay` after one loop iteration:
name-resolution and connect failures double it, capped at
`MAX_RECONNECT_DELAY_MS`; a socket-creation failure leaves it unchanged;
a successful connect resets it to `RECONNECT_DELAY_MS`. -/
def nextReconnectDelay : ConnectAttemptEvent → Nat → Nat
  | .resolveFail, d =>
    if d * 2 > MAX_RECONNECT_DELAY_MS then MAX_RECONNECT_DELAY_MS else d * 2
  | .socketFail, d => d
  | .connectFail, d =>
    if d * 2 > MAX_RECONNECT_DELAY_MS then MAX_RECONNECT_DELAY_MS else d * 2
  | .success, _ => RECONNECT_DELAY_MS

/-- The delay values slept through a run of the retry loop starting from
stored delay `d0`: attempt `k` sleeps the value stored before its own
update. -/
def reconnectDelayTrace (d0 : Nat) : List ConnectAttemptEvent → List Nat
  | [] => [d0]
  | e :: es => d0 :: reconnectDelayTrace (nextReconnectDelay e d0) es

/-- State touched by the socket client send path: the `connected` flag,
the socket, and the statistics. -/
structure SocketClientState where
  connected : Bool
  client_socket : Int
  bytes_sent : Nat
  bytes_received : Nat
  connection_count : Nat
  last_connect_time : Nat
  last_disconnect_time : Nat
deriving DecidableEq

/-- Function `socket_client_disconnect` (socket_client.c lines 142-154): close the
socket when open, clear `connected`, stamp `last_disconnect_time`. -/
def socket_client_disconnect (now : Nat) (s : SocketClientState) :
    SocketClientState :=
  let s1 := if 0 ≤ s.client_socket then { s with client_socket := -1 } else s
  { s1 with connected := false, last_disconnect_time := now }

/-- Function `socket_client_send_data` (socket_client.c lines 156-171).
`sendResult` is what `send(client_socket, data, length, 0)` returned. -/
def socket_client_send_data (sendResult : Int) (now : Nat)
    (s : SocketClientState) : esp_err_t × SocketClientState :=
  if s.connected = false ∨ s.client_socket < 0 then
    (esp_err_t.ESP_ERR_INVALID_STATE, s)
  else if sendResult < 0 then
    (esp_err_t.ESP_FAIL, socket_client_disconnect now s)
  else
    (esp_err_t.ESP_OK, { s with bytes_sent := s.bytes_sent + sendResult.toNat })

/-- Function `socket_client_send_uart_data` (socket_client.c lines 306-308)
delegates to `socket_client_send_data`. -/
def socket_client_send_uart_data (sendResult : Int) (now : Nat)
    (s : SocketClientState) : esp_err_t × SocketClientState :=
  socket_client_send_data sendResult now s

/-! ## SD logger (`sd_logger.c`) -/

/-- State touched by the SD logger write path: the enable flag, whether a
log file is open, and the date of the currently open file. -/
structure SdLoggerState where
  logging_enabled : Bool
  log_file_open : Bool
  current_date : String
deriving DecidableEq

/-- Function `sd_logger_check_date` (sd_logger.c lines 94-130).  `today` is the
`strftime`-formatted current date; `fopenOk` is whether the `fopen` of the
day's file succeeds. -/
def sd_logger_check_date (today : String) (fopenOk : Bool)
    (s : SdLoggerState) : esp_err_t × SdLoggerState :=
  if s.logging_enabled = false then (esp_err_t.ESP_OK, s)
  else if s.current_date ≠ today then
    let s1 := { s with log_file_open := false, current_date := today }
    if fopenOk = true then (esp_err_t.ESP_OK, { s1 with log_file_open := true })
    else (esp_err_t.ESP_FAIL, s1)
  else (esp_err_t.ESP_OK, s)

/-- Function `sd_logger_write` (sd_logger.c lines 132-151).  `fwriteWritten` is the
count `fwrite` reports.  Result: the error code, the state, and the number
of bytes handed to `fwrite` that it reported written (0 when no `fwrite`
took place). -/
def sd_logger_write (today : String) (fopenOk : Bool) (fwriteWritten : Nat)
    (len : Nat) (s : SdLoggerState) : esp_err_t × SdLoggerState × Nat :=
  if s.logging_enabled = false ∨ s.log_file_open = false then
    (esp_err_t.ESP_OK, s, 0)
  else
    let s1 := (sd_logger_check_date today fopenOk s).2
    if s1.log_file_open = true then
      if fwriteWritten ≠ len then (esp_err_t.ESP_FAIL, s1, fwriteWritten)
      else (esp_err_t.ESP_OK, s1, fwriteWritten)
    else (esp_err_t.ESP_FAIL, s1, 0)

/-! ## Concrete fixtures used by the witness theorems -/

/-- A table whose ten slots are all occupied (same remote is fine: TCP slots
are keyed by handle, and duplicates do not matter for fullness). -/
def fullTableW : List socket_client_t :=
  List.replicate MAX_CLIENTS
    { socket := 7, addr := (1, 1), connected := true,
      bytes_sent := 3, bytes_received := 0, connect_time := 0 }

/-- A small mixed table: slots 0 and 1 occupied, slot 2 free. -/
def mixedTableW : List socket_client_t :=
  [{ socket := 5, addr := (1, 1), connected := true,
     bytes_sent := 10, bytes_received := 0, connect_time := 0 },
   { socket := 6, addr := (2, 2), connected := true,
     bytes_sent := 20, bytes_received := 0, connect_time := 0 },
   emptyClient]

/-- Per-slot send results where slot 0 fails and every other send writes 8
bytes. -/
def sendResultsW : Nat → Int := fun i => if i = 0 then -1 else 8

/-- A table with UDP peer (1, 1) at slot 0 and UDP peer (2, 2) at slot 1,
slot 2 free. -/
def twoPeersW : List socket_client_t :=
  [{ socket := 2, addr := (1, 1), connected := true,
     bytes_sent := 0, bytes_received := 0, connect_time := 0 },
   { socket := 2, addr := (2, 2), connected := true,
     bytes_sent := 0, bytes_received := 0, connect_time := 0 },
   emptyClient]

/-- Endpoint A of the witness scenario: streaming (caster ready, open
socket 3). -/
def uplinkAW : NtripServerState :=
  { sock := 3, caster_ready := true, data_ready := true, data_sent := true,
    data_keep_alive := 5, bytes_sent := 100, resume_requested := false }

/-- Endpoint B of the witness scenario: streaming (caster ready, open
socket 4). -/
def uplinkBW : NtripServerState :=
  { sock := 4, caster_ready := true, data_ready := true, data_sent := true,
    data_keep_alive := 5, bytes_sent := 7, resume_requested := false }

/-! ## Broadcast lemmas -/

theorem socket_send_to_all_clients_length (sendResult : Nat → Int)
    (tbl : List socket_client_t) :
    (socket_send_to_all_clients sendResult tbl).length = tbl.length := by
  induction tbl generalizing sendResult with
  | nil => rfl
  | cons c t ih => simp [socket_send_to_all_clients, ih]

theorem socket_send_to_all_clients_getD (sendResult : Nat → Int)
    (tbl : List socket_client_t) (i : Nat) (d : socket_client_t)
    (h : i < tbl.length) :
    (socket_send_to_all_clients sendResult tbl).getD i d
      = broadcast_step (sendResult i) (tbl.getD i d) := by
  induction tbl generalizing sendResult i with
  | nil => simp at h
  | cons c t ih =>
    cases i with
    | zero => rfl
    | succ j =>
      have hj : j < t.length := by simpa using h
      simpa [socket_send_to_all_clients] using
        ih (fun k => sendResult (k + 1)) j hj

/-! ## Claim theorems -/

/-- Claim C1: for two configured Uplink endpoints A and B both in Streaming
state (caster ready, open socket), a write failure on A's socket inside
A's dispatch callback tears down only A's socket and wakes only A's
worker; B's caster_ready bit and Streaming socket are unchanged, B's
worker is not woken, and the chunk of the same dispatch call is still
written to B's socket (B's sent-byte statistic grows by B's write
result). -/
theorem ntrip_uplink_write_failure_isolated
    (A B : NtripServerState) (wrA wrB : Int)
    (hAcr : A.caster_ready = true) (hAs : 0 ≤ A.sock)
    (hBcr : B.caster_ready = true) (hBs : 0 ≤ B.sock)
    (hwA : wrA < 0) (hwB : 0 ≤ wrB) :
    (source_dispatch true true wrA wrB (A, B)).1.sock = -1 ∧
    (source_dispatch true true wrA wrB (A, B)).1.resume_requested = true ∧
    (source_dispatch true true wrA wrB (A, B)).2.caster_ready = true ∧
    (source_dispatch true true wrA wrB (A, B)).2.sock = B.sock ∧
    (source_dispatch true true wrA wrB (A, B)).2.resume_requested
      = B.resume_requested ∧
    (source_dispatch true true wrA wrB (A, B)).2.bytes_sent
      = B.bytes_sent + wrB.toNat := by
  simp only [source_dispatch, ntrip_server_uart_handler]
  by_cases h1 : A.data_ready = false <;> by_cases h2 : A.data_sent = false <;>
    by_cases h3 : B.data_ready = false <;> by_cases h4 : B.data_sent = false <;>
    simp_all [not_lt.mpr hwB]

/-- Witness for C1 at concrete streaming endpoints: A's write returns -1,
B's returns 10. -/
theorem ntrip_uplink_write_failure_isolated_witness :
    (source_dispatch true true (-1) 10 (uplinkAW, uplinkBW)).1.sock = -1 ∧
    (source_dispatch true true (-1) 10 (uplinkAW, uplinkBW)).1.resume_requested
      = true ∧
    (source_dispatch true true (-1) 10 (uplinkAW, uplinkBW)).2.caster_ready
      = true ∧
    (source_dispatch true true (-1) 10 (uplinkAW, uplinkBW)).2.sock
      = uplinkBW.sock ∧
    (source_dispatch true true (-1) 10 (uplinkAW, uplinkBW)).2.resume_requested
      = uplinkBW.resume_requested ∧
    (source_dispatch true true (-1) 10 (uplinkAW, uplinkBW)).2.bytes_sent
      = uplinkBW.bytes_sent + (10 : Int).toNat :=
  ntrip_uplink_write_failure_isolated uplinkAW uplinkBW (-1) 10
    (by decide) (by decide) (by decide) (by decide) (by decide) (by decide)

/-- Claim C2 (code bug, evaluated at the failing input): the capacity
bound itself is honoured — on the full 10-slot table the extra TCP
connection's socket is closed with no slot created, and no datagram can
claim a slot either — but the UDP branch does not silently ignore the
11th-source datagram as claimed: its slot lookup is keyed by the NEXT
queued datagram (`socket_server_task` consumes the datagram at line 589,
then `socket_udp_accept` issues a second blocking `MSG_PEEK` at line 434),
so when the next queued datagram is from the existing peer (1, 1) the
foreign 64 bytes are credited to that peer's slot, and when nothing is
queued the peek blocks the whole server loop, stalling broadcasts to
every existing peer. -/
theorem socket_server_capacity_bound_bug :
    socket_tcp_accept 42 (8, 8) 0 fullTableW = (fullTableW, none, true) ∧
    socket_server_handle_udp 2 (9, 9) 0 64 fullTableW = (fullTableW, 64) ∧
    (socket_server_handle_udp 2 (1, 1) 0 64 fullTableW).1
      = fullTableW.set 0
          { socket := 7, addr := (1, 1), connected := true,
            bytes_sent := 3, bytes_received := 64, connect_time := 0 } ∧
    ((socket_server_handle_udp 2 (1, 1) 0 64 fullTableW).1).length
      = MAX_CLIENTS := by
  decide

/-- Claim C7: in a single broadcast pass, slot `i`'s outcome is a function
of slot `i` and its own send result alone; a failed send to one occupied
slot only marks that slot disconnected, while every other occupied slot
still has its send attempted and its sent-byte counter incremented on
success — for every table state and every pattern of per-slot send
failures. -/
theorem socket_send_to_all_clients_isolated
    (sendResult : Nat → Int) (tbl : List socket_client_t) :
    (socket_send_to_all_clients sendResult tbl).length = tbl.length ∧
    (∀ i, i < tbl.length →
        (socket_send_to_all_clients sendResult tbl).getD i emptyClient
          = broadcast_step (sendResult i) (tbl.getD i emptyClient)) ∧
    (∀ j, j < tbl.length → (tbl.getD j emptyClient).connected = true →
        sendResult j < 0 →
        (socket_send_to_all_clients sendResult tbl).getD j emptyClient
          = { tbl.getD j emptyClient with connected := false }) ∧
    (∀ i, i < tbl.length → (tbl.getD i emptyClient).connected = true →
        0 ≤ sendResult i →
        ((socket_send_to_all_clients sendResult tbl).getD i
            emptyClient).connected = true ∧
        ((socket_send_to_all_clients sendResult tbl).getD i
            emptyClient).bytes_sent
          = (tbl.getD i emptyClient).bytes_sent + (sendResult i).toNat) := by
  refine ⟨socket_send_to_all_clients_length sendResult tbl, ?_, ?_, ?_⟩
  · intro i hi
    exact socket_send_to_all_clients_getD sendResult tbl i emptyClient hi
  · intro j hj hconn hfail
    rw [socket_send_to_all_clients_getD sendResult tbl j emptyClient hj]
    unfold broadcast_step
    rw [if_pos hconn, if_pos hfail]
  · intro i hi hconn hokk
    have h2 : ¬ sendResult i < 0 := not_lt.mpr hokk
    rw [socket_send_to_all_clients_getD sendResult tbl i emptyClient hi]
    unfold broadcast_step
    rw [if_pos hconn, if_neg h2]
    exact ⟨hconn, rfl⟩

/-- Witness for C7 on the mixed table with slot 0's send failing and slot
1's succeeding: slot 0 is only marked disconnected, slot 1's counter
grows by 8. -/
theorem socket_send_to_all_clients_isolated_witness :
    (socket_send_to_all_clients sendResultsW mixedTableW).getD 0 emptyClient
      = { mixedTableW.getD 0 emptyClient with connected := false } ∧
    ((socket_send_to_all_clients sendResultsW mixedTableW).getD 1
        emptyClient).connected = true ∧
    ((socket_send_to_all_clients sendResultsW mixedTableW).getD 1
        emptyClient).bytes_sent
      = (mixedTableW.getD 1 emptyClient).bytes_sent
          + (sendResultsW 1).toNat :=
  ⟨(socket_send_to_all_clients_isolated sendResultsW mixedTableW).2.2.1 0
      (by decide) (by decide) (by decide),
   (socket_send_to_all_clients_isolated sendResultsW mixedTableW).2.2.2 1
      (by decide) (by decide) (by decide)⟩

/-- Claim C8 (code bug, evaluated at the failing input): against the table
holding UDP peer (1, 1) at slot 0 and UDP peer (2, 2) at slot 1, let the
socket's queue hold a 5-byte datagram from (1, 1), then a 7-byte datagram
from (2, 2), then another datagram from (1, 1).  The server loop consumes
the (1, 1) datagram (line 589) and `socket_udp_accept`'s `MSG_PEEK`
(line 434) then returns the QUEUED (2, 2) address, so the 5 bytes are
credited to slot 1; the next iteration consumes the (2, 2) datagram and
the peek returns (1, 1), crediting its 7 bytes to slot 0.  Same-source
datagrams are thus not attributed to one slot: the first (1, 1)
datagram's bytes sit on peer (2, 2)'s slot and vice versa, while no new
slot is touched. -/
theorem socket_udp_misattribution_bug :
    ((socket_server_handle_udp 2 (1, 1) 1 7
        (socket_server_handle_udp 2 (2, 2) 0 5 twoPeersW).1).1.getD 0
        emptyClient).addr = (1, 1) ∧
    ((socket_server_handle_udp 2 (1, 1) 1 7
        (socket_server_handle_udp 2 (2, 2) 0 5 twoPeersW).1).1.getD 0
        emptyClient).bytes_received = 7 ∧
    ((socket_server_handle_udp 2 (1, 1) 1 7
        (socket_server_handle_udp 2 (2, 2) 0 5 twoPeersW).1).1.getD 1
        emptyClient).addr = (2, 2) ∧
    ((socket_server_handle_udp 2 (1, 1) 1 7
        (socket_server_handle_udp 2 (2, 2) 0 5 twoPeersW).1).1.getD 1
        emptyClient).bytes_received = 5 ∧
    ((socket_server_handle_udp 2 (1, 1) 1 7
        (socket_server_handle_udp 2 (2, 2) 0 5 twoPeersW).1).1.getD 2
        emptyClient) = emptyClient := by
  decide

/-! ## Backoff lemmas -/

theorem nextReconnectDelay_ge (e : ConnectAttemptEvent)
    (he : e ≠ ConnectAttemptEvent.success) (d : Nat)
    (hd : d ≤ MAX_RECONNECT_DELAY_MS) : d ≤ nextReconnectDelay e d := by
  cases e with
  | resolveFail =>
    simp only [nextReconnectDelay, MAX_RECONNECT_DELAY_MS] at *
    split <;> omega
  | socketFail => exact le_refl d
  | connectFail =>
    simp only [nextReconnectDelay, MAX_RECONNECT_DELAY_MS] at *
    split <;> omega
  | success => exact absurd rfl he

theorem nextReconnectDelay_le_max (e : ConnectAttemptEvent) (d : Nat)
    (hd : d ≤ MAX_RECONNECT_DELAY_MS) :
    nextReconnectDelay e d ≤ MAX_RECONNECT_DELAY_MS := by
  cases e with
  | resolveFail =>
    simp only [nextReconnectDelay, MAX_RECONNECT_DELAY_MS] at *
    split <;> omega
  | socketFail => exact hd
  | connectFail =>
    simp only [nextReconnectDelay, MAX_RECONNECT_DELAY_MS] at *
    split <;> omega
  | success =>
    simp [nextReconnectDelay, RECONNECT_DELAY_MS, MAX_RECONNECT_DELAY_MS]

theorem reconnectDelayTrace_head (d : Nat) (es : List ConnectAttemptEvent) :
    (reconnectDelayTrace d es).head? = some d := by
  cases es <;> rfl

/-! ## Keep-alive lemmas -/

theorem ntrip_keep_alive_tick_counter (T : Nat) (s : NtripLivenessState) :
    (ntrip_keep_alive_tick T s).data_keep_alive
      = s.data_keep_alive + T / 10 := by
  unfold ntrip_keep_alive_tick
  by_cases hk : s.data_keep_alive = T <;> simp [hk]

theorem ntrip_keep_alive_tick_parked (T : Nat) (s : NtripLivenessState) :
    (ntrip_keep_alive_tick T s).parked_waiting = s.parked_waiting := by
  unfold ntrip_keep_alive_tick
  by_cases hk : s.data_keep_alive = T <;> simp [hk]

theorem ntrip_keep_alive_ticks_counter (T k : Nat) (s : NtripLivenessState) :
    (ntrip_keep_alive_ticks T k s).data_keep_alive
      = s.data_keep_alive + k * (T / 10) := by
  induction k generalizing s with
  | zero => simp [ntrip_keep_alive_ticks]
  | succ k2 ih =>
    show (ntrip_keep_alive_ticks T k2 (ntrip_keep_alive_tick T s)).data_keep_alive = _
    rw [ih, ntrip_keep_alive_tick_counter]
    ring

theorem ntrip_keep_alive_ticks_parked (T k : Nat) (s : NtripLivenessState) :
    (ntrip_keep_alive_ticks T k s).parked_waiting = s.parked_waiting := by
  induction k generalizing s with
  | zero => rfl
  | succ k2 ih =>
    show (ntrip_keep_alive_ticks T k2 (ntrip_keep_alive_tick T s)).parked_waiting = _
    rw [ih, ntrip_keep_alive_tick_parked]

theorem ntrip_keep_alive_ticks_succ (T k : Nat) (s : NtripLivenessState) :
    ntrip_keep_alive_ticks T (k + 1) s
      = ntrip_keep_alive_tick T (ntrip_keep_alive_ticks T k s) := by
  induction k generalizing s with
  | zero => rfl
  | succ k2 ih =>
    show ntrip_keep_alive_ticks T (k2 + 1) (ntrip_keep_alive_tick T s) = _
    rw [ih]
    rfl

/-! ## More claim theorems -/

/-- Claim C4: across consecutive failed connection attempts the stored
reconnect delay is non-decreasing (staying at the cap once reached), and a
successful connect resets it to the configured minimum
`RECONNECT_DELAY_MS`. -/
theorem socket_client_backoff_monotone (d0 : Nat)
    (es : List ConnectAttemptEvent)
    (hd0 : d0 ≤ MAX_RECONNECT_DELAY_MS)
    (hfail : ∀ e ∈ es, e ≠ ConnectAttemptEvent.success) :
    List.Chain' (· ≤ ·) (reconnectDelayTrace d0 es) ∧
    (∀ d, nextReconnectDelay ConnectAttemptEvent.success d
        = RECONNECT_DELAY_MS) := by
  refine ⟨?_, fun d => rfl⟩
  induction es generalizing d0 with
  | nil => simp [reconnectDelayTrace]
  | cons e es2 ih =>
    have he : e ≠ ConnectAttemptEvent.success :=
      hfail e (List.mem_cons_self e es2)
    have hstep : d0 ≤ nextReconnectDelay e d0 :=
      nextReconnectDelay_ge e he d0 hd0
    have hmax : nextReconnectDelay e d0 ≤ MAX_RECONNECT_DELAY_MS :=
      nextReconnectDelay_le_max e d0 hd0
    have htail := ih (nextReconnectDelay e d0) hmax
      (fun x hx => hfail x (List.mem_cons_of_mem e hx))
    show List.Chain' (· ≤ ·)
      (d0 :: reconnectDelayTrace (nextReconnectDelay e d0) es2)
    rw [List.chain'_cons']
    refine ⟨?_, htail⟩
    intro b hb
    rw [reconnectDelayTrace_head] at hb
    cases hb
    exact hstep

/-- Witness for C4: starting from the initial 5000 ms delay, three
failures then a further failure at 40000 ms, with the slept delays forming
a non-decreasing chain; a success from any stored delay returns to
5000 ms. -/
theorem socket_client_backoff_monotone_witness :
    List.Chain' (· ≤ ·)
      (reconnectDelayTrace RECONNECT_DELAY_MS
        [ConnectAttemptEvent.resolveFail, ConnectAttemptEvent.connectFail,
         ConnectAttemptEvent.socketFail, ConnectAttemptEvent.connectFail,
         ConnectAttemptEvent.connectFail, ConnectAttemptEvent.resolveFail]) ∧
    (∀ d, nextReconnectDelay ConnectAttemptEvent.success d
        = RECONNECT_DELAY_MS) :=
  socket_client_backoff_monotone RECONNECT_DELAY_MS
    [ConnectAttemptEvent.resolveFail, ConnectAttemptEvent.connectFail,
     ConnectAttemptEvent.socketFail, ConnectAttemptEvent.connectFail,
     ConnectAttemptEvent.connectFail, ConnectAttemptEvent.resolveFail]
    (by decide) (by decide)

/-- Claim C5: with no source chunk for the keep-alive threshold `T` (11
sleep-task iterations starting from a just-reset counter), the keep-alive
worker clears `data_ready`; the uplink worker's loop gate then parks it
waiting for data instead of proceeding to a connection attempt; the next
source chunk wakes the parked worker (and a chunk arriving while the
worker is not parked re-arms `data_ready`). -/
theorem ntrip_keep_alive_gating (T : Nat) (s : NtripLivenessState)
    (_hT : 0 < T) (hmod : T % 10 = 0) (h0 : s.data_keep_alive = 0)
    (_hdr : s.data_ready = true) (hp : s.parked_waiting = false) :
    (ntrip_keep_alive_ticks T 11 s).data_ready = false ∧
    (ntrip_wait_for_data_gate (ntrip_keep_alive_ticks T 11 s)).1 = false ∧
    (ntrip_wait_for_data_gate
        (ntrip_keep_alive_ticks T 11 s)).2.parked_waiting = true ∧
    (ntrip_uart_data_arrival
        (ntrip_wait_for_data_gate
          (ntrip_keep_alive_ticks T 11 s)).2).parked_waiting = false ∧
    (ntrip_uart_data_arrival
        (ntrip_wait_for_data_gate
          (ntrip_keep_alive_ticks T 11 s)).2).data_keep_alive = 0 ∧
    (∀ s2 : NtripLivenessState, s2.parked_waiting = false →
        (ntrip_uart_data_arrival s2).data_ready = true) := by
  have h10 : 10 * (T / 10) = T := by omega
  have hka10 : (ntrip_keep_alive_ticks T 10 s).data_keep_alive = T := by
    rw [ntrip_keep_alive_ticks_counter, h0, h10]
    omega
  have hclear : (ntrip_keep_alive_ticks T 11 s).data_ready = false := by
    rw [ntrip_keep_alive_ticks_succ]
    unfold ntrip_keep_alive_tick
    rw [if_pos hka10]
  have hpark : (ntrip_keep_alive_ticks T 11 s).parked_waiting = false := by
    rw [ntrip_keep_alive_ticks_parked]
    exact hp
  have hgate : ntrip_wait_for_data_gate (ntrip_keep_alive_ticks T 11 s)
      = (false, { ntrip_keep_alive_ticks T 11 s with parked_waiting := true }) := by
    unfold ntrip_wait_for_data_gate
    rw [if_pos hclear]
  refine ⟨hclear, ?_, ?_, ?_, ?_, ?_⟩
  · rw [hgate]
  · rw [hgate]
  · rw [hgate]
    unfold ntrip_uart_data_arrival
    rw [if_pos, if_pos] <;> simp [hclear]
  · rw [hgate]
    unfold ntrip_uart_data_arrival
    rw [if_pos, if_pos] <;> simp [hclear]
  · intro s2 hp2
    unfold ntrip_uart_data_arrival
    by_cases h2 : s2.data_ready = false
    · rw [if_pos h2, if_neg (by simp [hp2] : ¬ s2.parked_waiting = true)]
    · rw [if_neg h2]
      simp at h2
      simpa using h2

/-- Witness for C5 at threshold 10000 ms from a fresh-data state. -/
theorem ntrip_keep_alive_gating_witness :
    (ntrip_keep_alive_ticks 10000 11 ⟨true, 0, false⟩).data_ready = false ∧
    (ntrip_wait_for_data_gate
        (ntrip_keep_alive_ticks 10000 11 ⟨true, 0, false⟩)).1 = false ∧
    (ntrip_wait_for_data_gate
        (ntrip_keep_alive_ticks 10000 11
          ⟨true, 0, false⟩)).2.parked_waiting = true ∧
    (ntrip_uart_data_arrival
        (ntrip_wait_for_data_gate
          (ntrip_keep_alive_ticks 10000 11
            ⟨true, 0, false⟩)).2).parked_waiting = false ∧
    (ntrip_uart_data_arrival
        (ntrip_wait_for_data_gate
          (ntrip_keep_alive_ticks 10000 11
            ⟨true, 0, false⟩)).2).data_keep_alive = 0 ∧
    (∀ s2 : NtripLivenessState, s2.parked_waiting = false →
        (ntrip_uart_data_arrival s2).data_ready = true) :=
  ntrip_keep_alive_gating 10000 ⟨true, 0, false⟩ (by decide) (by decide)
    (by decide) (by decide) (by decide)

/-- Claim C3: when the first response read after sending the handshake
request has no extractable status line, or a status line outside the "OK"
whitelist, the attempt sets no `CASTER_READY_BIT`, calls no `retry_reset`
(so the loop re-enters backoff-then-retry), never reaches streaming, and
ends with the socket destroyed. -/
theorem ntrip_server_handshake_reject (connectResult writeResult : Int)
    (response password mountpoint serverName version : String)
    (hc1 : connectResult ≠ CONNECT_SOCKET_ERROR_RESOLVE)
    (hc2 : connectResult ≠ CONNECT_SOCKET_ERROR_CONNECT)
    (hw : 0 ≤ writeResult)
    (hbad : extract_http_header response = none ∨
      (∀ status, extract_http_header response = some status →
          ntrip_response_ok status = false)) :
    ntrip_server_attempt true connectResult writeResult (some response)
        password mountpoint serverName version
      = { request_sent :=
            some (buildSourceRequest password mountpoint serverName version),
          caster_ready_set := false, retry_reset_called := false,
          reached_streaming := false, sock_after := -1 } := by
  cases hex : extract_http_header response with
  | none =>
    simp [ntrip_server_attempt, hc1, hc2, not_lt.mpr hw, hex]
  | some status =>
    rcases hbad with hnone | hnotok
    · rw [hex] at hnone
      exact absurd hnone (by simp)
    · have hnotok2 := hnotok status hex
      simp [ntrip_server_attempt, hc1, hc2, not_lt.mpr hw, hex, hnotok2]

/-- Witness for C3: a 401 status line is rejected; malformed responses
(no CRLF) are rejected too. -/
theorem ntrip_server_handshake_reject_witness :
    ntrip_server_attempt true 9 20 (some "HTTP/1.1 401 Unauthorized\x0d\x0a\x0d\x0a")
        "secret" "TEST" "ESP32-XBee" "1.0"
      = { request_sent :=
            some (buildSourceRequest "secret" "TEST" "ESP32-XBee" "1.0"),
          caster_ready_set := false, retry_reset_called := false,
          reached_streaming := false, sock_after := -1 } :=
  ntrip_server_handshake_reject 9 20 "HTTP/1.1 401 Unauthorized\x0d\x0a\x0d\x0a"
    "secret" "TEST" "ESP32-XBee" "1.0" (by decide) (by decide) (by decide)
    (Or.inr (fun status h => by
      have he : extract_http_header "HTTP/1.1 401 Unauthorized\x0d\x0a\x0d\x0a"
          = some "HTTP/1.1 401 Unauthorized" := by decide
      rw [he, Option.some.injEq] at h
      rw [← h]
      decide))

/-- Claim C6: the first bytes written after a successful connect are
exactly the SOURCE request line built from the endpoint's credential
(password) and mountpoint identity, then one client-identity/version
header line, then a blank line, each line terminated by CRLF. -/
theorem ntrip_server_first_write_format (connectResult writeResult : Int)
    (readResult : Option String)
    (password mountpoint serverName version : String)
    (hc1 : connectResult ≠ CONNECT_SOCKET_ERROR_RESOLVE)
    (hc2 : connectResult ≠ CONNECT_SOCKET_ERROR_CONNECT) :
    (ntrip_server_attempt true connectResult writeResult readResult
        password mountpoint serverName version).request_sent
      = some ("SOURCE " ++ password ++ " /" ++ mountpoint ++ "\x0d\x0a"
          ++ "Source-Agent: NTRIP " ++ serverName ++ "/" ++ version
          ++ "\x0d\x0a" ++ "\x0d\x0a") := by
  by_cases hwr : writeResult < 0
  · simp [ntrip_server_attempt, buildSourceRequest, NEWLINE, hc1, hc2, hwr]
  · cases readResult with
    | none =>
      simp [ntrip_server_attempt, buildSourceRequest, NEWLINE, hc1, hc2, hwr]
    | some response =>
      cases hex : extract_http_header response with
      | none =>
        simp [ntrip_server_attempt, buildSourceRequest, NEWLINE, hc1, hc2,
          hwr, hex]
      | some status =>
        by_cases hok : ntrip_response_ok status = true <;>
          simp [ntrip_server_attempt, buildSourceRequest, NEWLINE, hc1, hc2,
            hwr, hex, hok]

/-- Witness for C6 at identity TEST and credential secret: the request is
byte-for-byte the SOURCE line from exactly those values. -/
theorem ntrip_server_first_write_format_witness :
    (ntrip_server_attempt true 9 64 (some "ICY 200 OK\x0d\x0a\x0d\x0a")
        "secret" "TEST" "ESP32-XBee" "1.0").request_sent
      = some ("SOURCE " ++ "secret" ++ " /" ++ "TEST" ++ "\x0d\x0a"
          ++ "Source-Agent: NTRIP " ++ "ESP32-XBee" ++ "/" ++ "1.0"
          ++ "\x0d\x0a" ++ "\x0d\x0a") :=
  ntrip_server_first_write_format 9 64 (some "ICY 200 OK\x0d\x0a\x0d\x0a")
    "secret" "TEST" "ESP32-XBee" "1.0" (by decide) (by decide)

/-- Claim C9: when the socket client is not connected or its handle is
invalid, `socket_client_send_data` (and the public
`socket_client_send_uart_data`) returns `ESP_ERR_INVALID_STATE` leaving
the state — statistics included — untouched; when connected, a failed
send closes the socket, marks the client disconnected and returns
`ESP_FAIL`, while a successful send adds the sent count to `bytes_sent`
and returns `ESP_OK`. -/
theorem socket_client_send_data_spec :
    (∀ (r : Int) (now : Nat) (s : SocketClientState),
        s.connected = false ∨ s.client_socket < 0 →
        socket_client_send_data r now s = (esp_err_t.ESP_ERR_INVALID_STATE, s) ∧
        socket_client_send_uart_data r now s
          = (esp_err_t.ESP_ERR_INVALID_STATE, s)) ∧
    (∀ (r : Int) (now : Nat) (s : SocketClientState),
        s.connected = true → 0 ≤ s.client_socket → r < 0 →
        socket_client_send_data r now s
          = (esp_err_t.ESP_FAIL,
             { s with client_socket := -1, connected := false, last_disconnect_time := now }) ∧
        socket_client_send_uart_data r now s
          = (esp_err_t.ESP_FAIL,
             { s with client_socket := -1, connected := false, last_disconnect_time := now })) ∧
    (∀ (r : Int) (now : Nat) (s : SocketClientState),
        s.connected = true → 0 ≤ s.client_socket → 0 ≤ r →
        socket_client_send_data r now s
          = (esp_err_t.ESP_OK,
             { s with bytes_sent := s.bytes_sent + r.toNat }) ∧
        socket_client_send_uart_data r now s
          = (esp_err_t.ESP_OK,
             { s with bytes_sent := s.bytes_sent + r.toNat })) := by
  refine ⟨?_, ?_, ?_⟩
  · intro r now s hinv
    have : socket_client_send_data r now s
        = (esp_err_t.ESP_ERR_INVALID_STATE, s) := by
      unfold socket_client_send_data
      rw [if_pos hinv]
    exact ⟨this, this⟩
  · intro r now s hconn hsock hr
    have hninv : ¬ (s.connected = false ∨ s.client_socket < 0) := by
      simp [hconn, not_lt.mpr hsock]
    have : socket_client_send_data r now s
        = (esp_err_t.ESP_FAIL,
           { s with client_socket := -1, connected := false, last_disconnect_time := now }) := by
      unfold socket_client_send_data socket_client_disconnect
      rw [if_neg hninv, if_pos hr, if_pos hsock]
    exact ⟨this, this⟩
  · intro r now s hconn hsock hr
    have hninv : ¬ (s.connected = false ∨ s.client_socket < 0) := by
      simp [hconn, not_lt.mpr hsock]
    have : socket_client_send_data r now s
        = (esp_err_t.ESP_OK,
           { s with bytes_sent := s.bytes_sent + r.toNat }) := by
      unfold socket_client_send_data
      rw [if_neg hninv, if_neg (not_lt.mpr hr)]
    exact ⟨this, this⟩

/-- Witness for C9: a disconnected client rejects a send unchanged; a
connected client on socket 5 disconnects on a failed send and accumulates
24 bytes on a successful one. -/
theorem socket_client_send_data_spec_witness :
    (socket_client_send_data 24 99 ⟨false, -1, 10, 0, 1, 0, 0⟩
       = (esp_err_t.ESP_ERR_INVALID_STATE, ⟨false, -1, 10, 0, 1, 0, 0⟩) ∧
     socket_client_send_uart_data 24 99 ⟨false, -1, 10, 0, 1, 0, 0⟩
       = (esp_err_t.ESP_ERR_INVALID_STATE, ⟨false, -1, 10, 0, 1, 0, 0⟩)) ∧
    (socket_client_send_data (-1) 99 ⟨true, 5, 10, 0, 1, 0, 0⟩
       = (esp_err_t.ESP_FAIL,
          { (⟨true, 5, 10, 0, 1, 0, 0⟩ : SocketClientState) with
            client_socket := -1, connected := false, last_disconnect_time := 99 }) ∧
     socket_client_send_uart_data (-1) 99 ⟨true, 5, 10, 0, 1, 0, 0⟩
       = (esp_err_t.ESP_FAIL,
          { (⟨true, 5, 10, 0, 1, 0, 0⟩ : SocketClientState) with
            client_socket := -1, connected := false, last_disconnect_time := 99 })) ∧
    (socket_client_send_data 24 99 ⟨true, 5, 10, 0, 1, 0, 0⟩
       = (esp_err_t.ESP_OK,
          { (⟨true, 5, 10, 0, 1, 0, 0⟩ : SocketClientState) with
            bytes_sent := 10 + (24 : Int).toNat }) ∧
     socket_client_send_uart_data 24 99 ⟨true, 5, 10, 0, 1, 0, 0⟩
       = (esp_err_t.ESP_OK,
          { (⟨true, 5, 10, 0, 1, 0, 0⟩ : SocketClientState) with
            bytes_sent := 10 + (24 : Int).toNat })) :=
  ⟨socket_client_send_data_spec.1 24 99 ⟨false, -1, 10, 0, 1, 0, 0⟩
     (by decide),
   socket_client_send_data_spec.2.1 (-1) 99 ⟨true, 5, 10, 0, 1, 0, 0⟩
     (by decide) (by decide) (by decide),
   socket_client_send_data_spec.2.2 24 99 ⟨true, 5, 10, 0, 1, 0, 0⟩
     (by decide) (by decide) (by decide)⟩

/-- Claim C10: `sd_logger_write` returns `ESP_OK` without writing any
bytes whenever logging is disabled or no log file is open; when logging is
enabled with an open file it returns `ESP_OK` only if all `len` bytes were
written, and returns `ESP_FAIL` whenever not all of them were. -/
theorem sd_logger_write_spec :
    (∀ (today : String) (fopenOk : Bool) (written len : Nat)
        (s : SdLoggerState),
        s.logging_enabled = false ∨ s.log_file_open = false →
        sd_logger_write today fopenOk written len s
          = (esp_err_t.ESP_OK, s, 0)) ∧
    (∀ (today : String) (fopenOk : Bool) (written len : Nat)
        (s : SdLoggerState),
        s.logging_enabled = true → s.log_file_open = true →
        ((sd_logger_write today fopenOk written len s).1 = esp_err_t.ESP_OK →
          (sd_logger_write today fopenOk written len s).2.2 = len) ∧
        ((sd_logger_write today fopenOk written len s).2.2 ≠ len →
          (sd_logger_write today fopenOk written len s).1
            = esp_err_t.ESP_FAIL)) := by
  refine ⟨?_, ?_⟩
  · intro today fopenOk written len s hoff
    unfold sd_logger_write
    rw [if_pos hoff]
  · intro today fopenOk written len s hen hopen
    have hnoff : ¬ (s.logging_enabled = false ∨ s.log_file_open = false) := by
      simp [hen, hopen]
    simp only [sd_logger_write]
    rw [if_neg hnoff]
    by_cases hrot : ((sd_logger_check_date today fopenOk s).2).log_file_open
        = true
    · rw [if_pos hrot]
      by_cases hlen : written = len
      · rw [if_neg (by simp [hlen] : ¬ (written ≠ len))]
        exact ⟨fun _ => hlen, fun hc => absurd hlen hc⟩
      · rw [if_pos (by simp [hlen] : written ≠ len)]
        exact ⟨fun hc => (nomatch hc), fun _ => rfl⟩
    · rw [if_neg hrot]
      exact ⟨fun hc => (nomatch hc), fun _ => rfl⟩

/-- Witness for C10: a disabled logger accepts a 3-byte write as a no-op;
an enabled logger with an open same-day file succeeds exactly on a full
write and fails on a short one. -/
theorem sd_logger_write_spec_witness :
    sd_logger_write "20260101" true 0 3 ⟨false, false, "20260101"⟩
      = (esp_err_t.ESP_OK, ⟨false, false, "20260101"⟩, 0) ∧
    ((sd_logger_write "20260101" true 3 3
          ⟨true, true, "20260101"⟩).1 = esp_err_t.ESP_OK →
      (sd_logger_write "20260101" true 3 3
          ⟨true, true, "20260101"⟩).2.2 = 3) ∧
    ((sd_logger_write "20260101" true 2 3
          ⟨true, true, "20260101"⟩).2.2 ≠ 3 →
      (sd_logger_write "20260101" true 2 3
          ⟨true, true, "20260101"⟩).1 = esp_err_t.ESP_FAIL) :=
  ⟨sd_logger_write_spec.1 "20260101" true 0 3 ⟨false, false, "20260101"⟩
     (by decide),
   (sd_logger_write_spec.2 "20260101" true 3 3 ⟨true, true, "20260101"⟩
     (by decide) (by decide)).1,
   (sd_logger_write_spec.2 "20260101" true 2 3 ⟨true, true, "20260101"⟩
     (by decide) (by decide)).2⟩

end Esp32NtripDuo
